import Mathlib

/-!
Shallow embedding of `src/src/main.cpp` of libgodot-test, a test harness that
embeds the Godot engine behind a platform window abstraction (`src/src/platform.h`).

Modelling conventions:
* Pointers are modelled as `Nat`, with `0` standing for `nullptr`.
* The global variables of `main.cpp` (`g_godot_instance`, `g_should_quit`,
  `g_platform`, `g_project_path`, `g_project_running`) become the fields of
  `HarnessState`; the platform pointer is reduced to the boolean "non-null",
  together with the run-state/status last handed to `platform_set_run_state`.
* Calls into the engine (`libgodot_*`) and the platform layer, and console
  output, are recorded as an `Event` trace; the results the engine returns
  (load success, per-frame quit request, created instance handle) are oracle
  inputs of the embedded functions.
* `std::string::empty()` is modelled as equality with `""`.
-/

/-- Observable actions of the harness: console lines, platform-layer calls and
engine (`libgodot_*`) calls, each engine call recording the instance handle
argument it was given (`0` = null pointer). -/
inductive Event where
  | consoleOut (line : String)
  | consoleErr (line : String)
  | platformInit (ok : Bool)
  | setWindowTitle (title : String)
  | setRunState (running : Bool) (status : Option String)
  | platformShutdown
  | engineCreate (result : Nat)
  | engineLoad (inst : Nat) (path : String) (ok : Bool)
  | engineUnload (inst : Nat)
  | engineIterate (inst : Nat) (quit : Bool)
  | engineDestroy (inst : Nat)
  deriving Repr, DecidableEq

/-- The global state of `main.cpp` (lines 20-25), plus the run-state flag and
status text last pushed to the platform UI via `platform_set_run_state`. -/
structure HarnessState where
  godot_instance : Nat
  should_quit : Bool
  platform : Bool
  project_path : String
  project_running : Bool
  run_state : Bool
  status_text : Option String
  deriving Repr, DecidableEq

/-- Initial values of the globals (`main.cpp` lines 21-25). -/
def init_state : HarnessState :=
  { godot_instance := 0
    should_quit := false
    platform := false
    project_path := ""
    project_running := false
    run_state := false
    status_text := none }

def EXIT_SUCCESS : Nat := 0

def EXIT_FAILURE : Nat := 1

/-- Whether an argument is one of the two project-path flags
(`main.cpp` line 31/38). -/
def is_path_flag (a : String) : Bool :=
  a == "--path" || a == "--main-pack"

/-- The scanning loop of `resolve_project_path` (`main.cpp` lines 29-34) over
`argv[1..]`: return the argument following the first path flag that still has
an argument after it. -/
def find_flag_value : List String → Option String
  | a :: b :: rest =>
      if is_path_flag a then some b else find_flag_value (b :: rest)
  | _ => none

/-- `resolve_project_path` (`main.cpp` lines 27-44); `argv` includes the
program name in position 0, exactly as in C. -/
def resolve_project_path (argv : List String) : String :=
  match argv with
  | [] => ""
  | _ :: args =>
    match find_flag_value args with
    | some v => v
    | none =>
      match args with
      | [] => ""
      | first :: _ => if is_path_flag first then "" else first

/-- The behaviour of `resolve_project_path` as the specification describes it:
the value following the first occurrence of `--path` or `--main-pack` that is
followed by a value; otherwise the bare first argument when it exists and is
not one of the two flags; otherwise the empty string. Stated independently of
the source, for comparison with `resolve_project_path`. -/
def resolve_project_path_claim (argv : List String) : String :=
  let args := argv.tail
  match (args.zip args.tail).find? (fun p => is_path_flag p.1) with
  | some p => p.2
  | none =>
    match args with
    | [] => ""
    | first :: _ => if is_path_flag first then "" else first

/-- `update_run_state` (`main.cpp` lines 70-77): set `g_project_running` and,
when the platform exists, push the run state and status text (null when the
status string is empty) to `platform_set_run_state`. -/
def update_run_state (s : HarnessState) (running : Bool) (status : String) :
    HarnessState × List Event :=
  let s1 := { s with project_running := running }
  if s1.platform then
    let status_text := if status = "" then none else some status
    ({ s1 with run_state := running, status_text := status_text },
     [Event.setRunState running status_text])
  else
    (s1, [])

/-- `stop_project` (`main.cpp` lines 79-92); `reason = none` models the
defaulted `nullptr` argument. -/
def stop_project (s : HarnessState) (reason : Option String) :
    HarnessState × List Event :=
  if s.godot_instance = 0 ∨ s.project_running = false then
    (s, [])
  else
    let log_reason := reason.getD "Stopped"
    let status :=
      match reason with
      | some r => "Project stopped: " ++ r
      | none => "Project stopped"
    let upd := update_run_state s false status
    (upd.1,
     Event.consoleOut ("[libgodot-test] Unloading project (" ++ log_reason ++ ")")
       :: Event.engineUnload s.godot_instance :: upd.2)

/-- `start_project` (`main.cpp` lines 94-123); `load_ok` is the value
`libgodot_load_project` returns if it is called. -/
def start_project (s : HarnessState) (load_ok : Bool) :
    HarnessState × List Event :=
  if s.godot_instance = 0 then
    ({ s with should_quit := true },
     [Event.consoleErr "[libgodot-test] Cannot start project: Godot instance is null"])
  else if s.project_running = true then
    (s, [Event.consoleOut "[libgodot-test] Project already running"])
  else if s.project_path = "" then
    (s, [Event.consoleErr "[libgodot-test] Cannot start project: no path provided"])
  else
    let pre := update_run_state s false "Loading project..."
    let s1 := pre.1
    let loadEv := Event.engineLoad s1.godot_instance s1.project_path load_ok
    if load_ok then
      let upd := update_run_state s1 true ("Running project: " ++ s1.project_path)
      (upd.1,
       Event.consoleOut ("[libgodot-test] Loading project: " ++ s.project_path)
         :: pre.2 ++ loadEv :: upd.2)
    else
      let upd := update_run_state s1 false "Failed to load project"
      (upd.1,
       Event.consoleOut ("[libgodot-test] Loading project: " ++ s.project_path)
         :: pre.2 ++ loadEv
         :: Event.consoleErr ("[libgodot-test] Failed to load Godot project: " ++ s1.project_path)
         :: upd.2)

/-- `on_frame` (`main.cpp` lines 129-143); `iterate_quit` is the value
`libgodot_iteration_godot_instance` returns if it is called. Result:
(new state, events, return value of the callback). -/
def on_frame (s : HarnessState) (iterate_quit : Bool) :
    HarnessState × List Event × Bool :=
  if s.godot_instance = 0 then
    (s, [], true)
  else if s.project_running = true then
    let iterEv := Event.engineIterate s.godot_instance iterate_quit
    if iterate_quit then
      let stopped := stop_project s (some "Project requested exit")
      (stopped.1, iterEv :: stopped.2, stopped.1.should_quit)
    else
      (s, [iterEv], s.should_quit)
  else
    (s, [], s.should_quit)

/-- `on_quit` (`main.cpp` lines 148-152). -/
def on_quit (s : HarnessState) : HarnessState × List Event :=
  let stopped := stop_project s (some "Window close requested")
  ({ stopped.1 with should_quit := true }, stopped.2)

/-- One occurrence delivered by the platform event loop: a frame (with the
engine's per-frame quit answer), a window-close request, or a press of the UI
start (with the engine's load answer) or stop button. -/
inductive LoopEvent where
  | frame (iterate_quit : Bool)
  | quit
  | start (load_ok : Bool)
  | stop
  deriving Repr, DecidableEq

/-- Modelled from the spec: `platform_run` is implemented by per-OS platform
code that is not under `src/`; per `platform.h` and the spec ("one frame loop
calls into the engine once per iteration", "return true to quit") it invokes
`callbacks.on_frame` each frame and exits when that returns true, and
dispatches window-close and UI start/stop events to the other callbacks
(`main.cpp` lines 232-242 wires the callbacks, including the
`stop_project("Stopped by user")` lambda for `on_stop`). -/
def run_loop : HarnessState → List LoopEvent → HarnessState × List Event
  | s, [] => (s, [])
  | s, LoopEvent.frame q :: rest =>
      let r := on_frame s q
      if r.2.2 then
        (r.1, r.2.1)
      else
        let k := run_loop r.1 rest
        (k.1, r.2.1 ++ k.2)
  | s, LoopEvent.quit :: rest =>
      let r := on_quit s
      let k := run_loop r.1 rest
      (k.1, r.2 ++ k.2)
  | s, LoopEvent.start ok :: rest =>
      let r := start_project s ok
      let k := run_loop r.1 rest
      (k.1, r.2 ++ k.2)
  | s, LoopEvent.stop :: rest =>
      let r := stop_project s (some "Stopped by user")
      let k := run_loop r.1 rest
      (k.1, r.2 ++ k.2)

/-- The argument vector handed to `libgodot_create_godot_instance`
(`main.cpp` lines 186-206, non-Apple build: `--display-driver external`
injected after the program name, then the original arguments). -/
def godot_argv (prog : String) (args : List String) : List String :=
  prog :: "--display-driver" :: "external" :: args

/-- The console line printed before creating the instance
(`main.cpp` lines 208-212). -/
def args_line (l : List String) : String :=
  "[libgodot-test] Creating Godot instance with args:"
    ++ String.join (l.map (fun a => " " ++ a))

/-- Inputs of one run of `main`: the argument vector (`prog` is `argv[0]`),
and the environment's answers: whether `platform_init` succeeds, the handle
`libgodot_create_godot_instance` returns (`0` = null), the result of the
auto-start `libgodot_load_project` call, and the events the platform loop
delivers. -/
structure MainInput where
  prog : String
  args : List String
  platform_ok : Bool
  create_result : Nat
  auto_load_ok : Bool
  loop_events : List LoopEvent
  deriving Repr, DecidableEq

/-- `main` (`main.cpp` lines 154-256; named `harness_main` because Lean reserves `main`). `platform_init`, window-title setting
and `platform_run` are platform code not under `src/` and are modelled from
the spec and `platform.h` as events plus the `run_loop` semantics. Result:
(exit code, event trace, final global state). -/
def harness_main (inp : MainInput) : Nat × List Event × HarnessState :=
  let s0 := init_state
  let project_path := resolve_project_path (inp.prog :: inp.args)
  if project_path = "" then
    (EXIT_FAILURE,
     [Event.consoleOut "[libgodot-test] Starting...",
      Event.consoleErr "Usage: godot_test <project_path_or_pck> [--path <project_path>|--main-pack <pck>]"],
     s0)
  else if inp.platform_ok = false then
    (EXIT_FAILURE,
     [Event.consoleOut "[libgodot-test] Starting...",
      Event.platformInit false,
      Event.consoleErr "[libgodot-test] Failed to initialize platform"],
     s0)
  else
    let s1 := { s0 with platform := true, project_path := project_path }
    let tr1 : List Event :=
      [Event.consoleOut "[libgodot-test] Starting...",
       Event.platformInit true,
       Event.setWindowTitle ("Embedded Godot Project from " ++ project_path),
       Event.consoleOut (args_line (godot_argv inp.prog inp.args)),
       Event.engineCreate inp.create_result]
    if inp.create_result = 0 then
      (EXIT_FAILURE,
       tr1 ++ [Event.consoleErr "[libgodot-test] Failed to create Godot instance",
               Event.platformShutdown],
       s1)
    else
      let s2 := { s1 with godot_instance := inp.create_result }
      let ready := update_run_state s2 false ("Project ready: " ++ project_path)
      let auto := start_project ready.1 inp.auto_load_ok
      let looped := run_loop auto.1 inp.loop_events
      let shut := stop_project looped.1 (some "Shutting down")
      let s3 := { shut.1 with godot_instance := 0, platform := false }
      (EXIT_SUCCESS,
       tr1 ++ ready.2 ++ auto.2
           ++ [Event.consoleOut "[libgodot-test] Godot ready, entering main loop"]
           ++ looped.2
           ++ [Event.consoleOut "[libgodot-test] Main loop ended, shutting down"]
           ++ shut.2
           ++ [Event.engineDestroy shut.1.godot_instance,
               Event.platformShutdown,
               Event.consoleOut "[libgodot-test] Done"],
       s3)

/-- The instance-handle argument of an engine call that takes one
(`libgodot_load_project`, `libgodot_unload_project`,
`libgodot_iteration_godot_instance`, `libgodot_destroy_godot_instance`). -/
def engine_call_inst : Event → Option Nat
  | Event.engineLoad i _ _ => some i
  | Event.engineUnload i => some i
  | Event.engineIterate i _ => some i
  | Event.engineDestroy i => some i
  | _ => none

/-- A successful `libgodot_load_project` call. -/
def is_load_ok : Event → Bool
  | Event.engineLoad _ _ ok => ok
  | _ => false

/-- Any `libgodot_load_project` call, successful or not. -/
def is_load_call : Event → Bool
  | Event.engineLoad _ _ _ => true
  | _ => false

/-- A `libgodot_unload_project` call. -/
def is_unload : Event → Bool
  | Event.engineUnload _ => true
  | _ => false

/-- A `libgodot_iteration_godot_instance` call. -/
def is_iterate : Event → Bool
  | Event.engineIterate _ _ => true
  | _ => false

/-- Alternation automaton for successful loads and unloads: the `Bool` is
"a project is currently loaded", `none` means alternation was violated
(a successful load while loaded, or an unload while unloaded). -/
def alt_step (st : Option Bool) (e : Event) : Option Bool :=
  match st with
  | none => none
  | some b =>
    if is_load_ok e then (if b then none else some true)
    else if is_unload e then (if b then some false else none)
    else some b

/-- Alternation automaton counting every load call (successful or not), as
the claim's literal "load and unload calls strictly alternate" reads. -/
def call_alt_step (st : Option Bool) (e : Event) : Option Bool :=
  match st with
  | none => none
  | some b =>
    if is_load_call e then (if b then none else some true)
    else if is_unload e then (if b then some false else none)
    else some b

/-! ### Helper lemmas about the embedded operations -/

@[simp]
theorem update_run_state_fst (s : HarnessState) (b : Bool) (st : String) :
    (update_run_state s b st).1 =
      if s.platform = true then
        { s with project_running := b, run_state := b,
                 status_text := if st = "" then none else some st }
      else
        { s with project_running := b } := by
  unfold update_run_state
  dsimp only
  split <;> simp_all

@[simp]
theorem update_run_state_snd (s : HarnessState) (b : Bool) (st : String) :
    (update_run_state s b st).2 =
      if s.platform = true then
        [Event.setRunState b (if st = "" then none else some st)]
      else
        [] := by
  unfold update_run_state
  dsimp only
  split <;> simp_all

theorem stop_project_skip (s : HarnessState) (r : Option String)
    (h : s.godot_instance = 0 ∨ s.project_running = false) :
    stop_project s r = (s, []) := by
  unfold stop_project
  rw [if_pos h]

theorem stop_project_active (s : HarnessState) (r : Option String)
    (h0 : s.godot_instance ≠ 0) (h1 : s.project_running = true) :
    stop_project s r =
      ((update_run_state s false (match r with
          | some x => "Project stopped: " ++ x
          | none => "Project stopped")).1,
       Event.consoleOut ("[libgodot-test] Unloading project (" ++ r.getD "Stopped" ++ ")")
         :: Event.engineUnload s.godot_instance
         :: (update_run_state s false (match r with
              | some x => "Project stopped: " ++ x
              | none => "Project stopped")).2) := by
  unfold stop_project
  rw [if_neg (by simp [h0, h1])]

theorem start_project_null (s : HarnessState) (ok : Bool)
    (h : s.godot_instance = 0) :
    start_project s ok =
      ({ s with should_quit := true },
       [Event.consoleErr "[libgodot-test] Cannot start project: Godot instance is null"]) := by
  unfold start_project
  rw [if_pos h]

theorem start_project_already_running (s : HarnessState) (ok : Bool)
    (h0 : s.godot_instance ≠ 0) (h1 : s.project_running = true) :
    start_project s ok =
      (s, [Event.consoleOut "[libgodot-test] Project already running"]) := by
  unfold start_project
  rw [if_neg h0, if_pos h1]

theorem start_project_no_path (s : HarnessState) (ok : Bool)
    (h0 : s.godot_instance ≠ 0) (h1 : s.project_running = false)
    (h2 : s.project_path = "") :
    start_project s ok =
      (s, [Event.consoleErr "[libgodot-test] Cannot start project: no path provided"]) := by
  unfold start_project
  rw [if_neg h0, if_neg (by simp [h1]), if_pos h2]

theorem start_project_load_ok (s : HarnessState)
    (h0 : s.godot_instance ≠ 0) (h1 : s.project_running = false)
    (h2 : s.project_path ≠ "") :
    start_project s true =
      ((update_run_state (update_run_state s false "Loading project...").1
          true ("Running project: " ++ s.project_path)).1,
       Event.consoleOut ("[libgodot-test] Loading project: " ++ s.project_path)
         :: (update_run_state s false "Loading project...").2
         ++ Event.engineLoad s.godot_instance s.project_path true
         :: (update_run_state (update_run_state s false "Loading project...").1
              true ("Running project: " ++ s.project_path)).2) := by
  unfold start_project
  rw [if_neg h0, if_neg (by simp [h1]), if_neg h2]
  by_cases hp : s.platform = true <;> simp [hp]

theorem start_project_load_fail (s : HarnessState)
    (h0 : s.godot_instance ≠ 0) (h1 : s.project_running = false)
    (h2 : s.project_path ≠ "") :
    start_project s false =
      ((update_run_state (update_run_state s false "Loading project...").1
          false "Failed to load project").1,
       Event.consoleOut ("[libgodot-test] Loading project: " ++ s.project_path)
         :: (update_run_state s false "Loading project...").2
         ++ Event.engineLoad s.godot_instance s.project_path false
         :: Event.consoleErr ("[libgodot-test] Failed to load Godot project: " ++ s.project_path)
         :: (update_run_state (update_run_state s false "Loading project...").1
              false "Failed to load project").2) := by
  unfold start_project
  rw [if_neg h0, if_neg (by simp [h1]), if_neg h2]
  by_cases hp : s.platform = true <;> simp [hp]

theorem find_flag_value_eq_find (args : List String) :
    find_flag_value args
      = ((args.zip args.tail).find? (fun p => is_path_flag p.1)).map Prod.snd := by
  induction args with
  | nil => rfl
  | cons a t ih =>
    cases t with
    | nil => rfl
    | cons b r =>
      show find_flag_value (a :: b :: r) = _
      by_cases h : is_path_flag a = true
      · simp [find_flag_value, h, List.find?]
      · simp only [find_flag_value, h, if_false, Bool.false_eq_true, List.tail_cons,
          List.zip_cons_cons, List.find?]
        simpa using ih

/-- C4: for every argument vector, `resolve_project_path` returns the value
following the first occurrence of `--path` or `--main-pack` that is followed
by a value; otherwise the bare first argument when it exists and is not one
of the two flags; otherwise the empty string (in particular a flag that is
the last argument yields the empty string). Stated as equality with
`resolve_project_path_claim`, the direct transcription of that description. -/
theorem resolve_project_path_spec_correct (argv : List String) :
    resolve_project_path argv = resolve_project_path_claim argv := by
  cases argv with
  | nil => rfl
  | cons p args =>
    show (match find_flag_value args with
      | some v => v
      | none =>
        match args with
        | [] => ""
        | first :: _ => if is_path_flag first then "" else first) = _
    unfold resolve_project_path_claim
    rw [find_flag_value_eq_find]
    simp only [List.tail_cons]
    cases (args.zip args.tail).find? (fun p => is_path_flag p.1) <;> rfl

/-- C5: the run/stop state machine is idempotent at both endpoints: calling
`start_project` while the project is already running (the instance being
non-null, as the running flag guarantees in every reachable state) performs
no engine call and changes no state, and calling `stop_project` while no
project is running or the instance is null performs no engine call and
changes no state. -/
theorem start_stop_idempotent_at_endpoints (s : HarnessState) (ok : Bool)
    (r : Option String) :
    (s.godot_instance ≠ 0 → s.project_running = true →
      (start_project s ok).1 = s ∧
      ∀ e ∈ (start_project s ok).2, engine_call_inst e = none) ∧
    (s.godot_instance = 0 ∨ s.project_running = false →
      stop_project s r = (s, [])) := by
  constructor
  · intro h0 h1
    rw [start_project_already_running s ok h0 h1]
    simp [engine_call_inst]
  · intro h
    exact stop_project_skip s r h

theorem start_stop_idempotent_at_endpoints_witness :
    ((3 ≠ 0 → true = true →
      (start_project { init_state with godot_instance := 3, project_running := true } false).1
        = { init_state with godot_instance := 3, project_running := true } ∧
      ∀ e ∈ (start_project { init_state with godot_instance := 3, project_running := true } false).2,
        engine_call_inst e = none) ∧
    ((3 : Nat) = 0 ∨ true = false →
      stop_project { init_state with godot_instance := 3, project_running := true } none
        = ({ init_state with godot_instance := 3, project_running := true }, []))) ∧
    stop_project init_state none = (init_state, []) := by
  constructor
  · exact start_stop_idempotent_at_endpoints
      { init_state with godot_instance := 3, project_running := true } false none
  · exact (start_stop_idempotent_at_endpoints init_state false none).2 (Or.inl rfl)

theorem stop_project_should_quit (s : HarnessState) (r : Option String) :
    (stop_project s r).1.should_quit = s.should_quit := by
  unfold stop_project
  split
  · rfl
  · simp only [update_run_state_fst]
    split <;> rfl

theorem stop_project_instance (s : HarnessState) (r : Option String) :
    (stop_project s r).1.godot_instance = s.godot_instance := by
  unfold stop_project
  split
  · rfl
  · simp only [update_run_state_fst]
    split <;> rfl

/-- A non-null instance with a loaded project and a live platform window:
a typical state during `platform_run`. -/
def sample_running_state : HarnessState :=
  { godot_instance := 2
    should_quit := false
    platform := true
    project_path := "demo"
    project_running := true
    run_state := true
    status_text := some "Running project: demo" }

/-- C6: each invocation of the frame callback `on_frame` (with a non-null
instance, as holds whenever the platform loop runs) calls the engine's
per-frame iterate at most once, calls it only while a project is running
(and then exactly once), and returns the current value of the global quit
flag, so that flag is consulted exactly once per loop iteration. -/
theorem on_frame_iterates_at_most_once (s : HarnessState) (q : Bool)
    (h : s.godot_instance ≠ 0) :
    List.countP (fun e => is_iterate e) (on_frame s q).2.1 ≤ 1 ∧
    (s.project_running = false →
      List.countP (fun e => is_iterate e) (on_frame s q).2.1 = 0) ∧
    (s.project_running = true →
      List.countP (fun e => is_iterate e) (on_frame s q).2.1 = 1) ∧
    (on_frame s q).2.2 = s.should_quit := by
  unfold on_frame
  rw [if_neg h]
  by_cases hr : s.project_running = true
  · rw [if_pos hr]
    cases q with
    | false => simp [List.countP, List.countP.go, is_iterate, hr]
    | true =>
      simp only [if_pos rfl, stop_project_should_quit]
      refine ⟨?_, ?_, ?_, rfl⟩
      · rw [stop_project_active s _ h hr]
        by_cases hp : s.platform = true <;>
          simp [hp, List.countP, List.countP.go, is_iterate]
      · intro hf
        rw [hr] at hf
        exact absurd hf (by simp)
      · intro _
        rw [stop_project_active s _ h hr]
        by_cases hp : s.platform = true <;>
          simp [hp, List.countP, List.countP.go, is_iterate]
  · rw [if_neg hr]
    have hr' : s.project_running = false := by
      revert hr; cases s.project_running <;> simp
    simp [List.countP, List.countP.go, hr']

theorem on_frame_iterates_at_most_once_witness :
    List.countP (fun e => is_iterate e) (on_frame sample_running_state false).2.1 ≤ 1 ∧
    (sample_running_state.project_running = false →
      List.countP (fun e => is_iterate e) (on_frame sample_running_state false).2.1 = 0) ∧
    (sample_running_state.project_running = true →
      List.countP (fun e => is_iterate e) (on_frame sample_running_state false).2.1 = 1) ∧
    (on_frame sample_running_state false).2.2 = sample_running_state.should_quit :=
  on_frame_iterates_at_most_once sample_running_state false (by decide)

/-- C9: when the engine's per-frame iterate reports a quit request (with a
project running and a non-null instance), `on_frame` unloads the project with
reason "Project requested exit", but does not quit the application: it still
returns the (unchanging) global quit flag in that same invocation, so it
returns false unless a window close or a null instance had independently set
that flag, and the window stays open with the harness idle. -/
theorem iterate_quit_unloads_without_app_quit (s : HarnessState)
    (h0 : s.godot_instance ≠ 0) (h1 : s.project_running = true) :
    (on_frame s true).1.project_running = false ∧
    Event.engineUnload s.godot_instance ∈ (on_frame s true).2.1 ∧
    Event.consoleOut "[libgodot-test] Unloading project (Project requested exit)"
      ∈ (on_frame s true).2.1 ∧
    (on_frame s true).2.2 = s.should_quit := by
  unfold on_frame
  rw [if_neg h0, if_pos h1]
  simp only [if_pos rfl, stop_project_should_quit]
  rw [stop_project_active s _ h0 h1]
  by_cases hp : s.platform = true <;> simp [hp]

theorem iterate_quit_unloads_without_app_quit_witness :
    (on_frame sample_running_state true).1.project_running = false ∧
    Event.engineUnload sample_running_state.godot_instance
      ∈ (on_frame sample_running_state true).2.1 ∧
    Event.consoleOut "[libgodot-test] Unloading project (Project requested exit)"
      ∈ (on_frame sample_running_state true).2.1 ∧
    (on_frame sample_running_state true).2.2 = sample_running_state.should_quit :=
  iterate_quit_unloads_without_app_quit sample_running_state (by decide) (by decide)

/-- C2: a mid-run `start_project` call in which `libgodot_load_project` fails
(non-null instance, not running, path set, live platform window whose run
state agrees with the running flag, as in every reachable mid-run state)
reports the failure on the console and leaves the harness idle and otherwise
unchanged: the whole state, in particular the running flag (false), the quit
flag, the project path and the instance handle, is preserved except that the
status text becomes the failure message; nothing requests termination. -/
theorem midrun_load_failure_keeps_idle_state (s : HarnessState)
    (h0 : s.godot_instance ≠ 0) (h1 : s.project_running = false)
    (h2 : s.project_path ≠ "") (h3 : s.platform = true)
    (h4 : s.run_state = false) :
    (start_project s false).1 = { s with status_text := some "Failed to load project" } ∧
    Event.consoleErr ("[libgodot-test] Failed to load Godot project: " ++ s.project_path)
      ∈ (start_project s false).2 := by
  rw [start_project_load_fail s h0 h1 h2]
  refine ⟨?_, by simp⟩
  simp [h3]
  cases s
  simp_all

/-- A mid-run idle state (project loaded once and stopped again). -/
def sample_idle_state : HarnessState :=
  { godot_instance := 2
    should_quit := false
    platform := true
    project_path := "demo"
    project_running := false
    run_state := false
    status_text := some "Project stopped: Stopped by user" }

theorem midrun_load_failure_keeps_idle_state_witness :
    (start_project sample_idle_state false).1
      = { sample_idle_state with status_text := some "Failed to load project" } ∧
    Event.consoleErr ("[libgodot-test] Failed to load Godot project: "
        ++ sample_idle_state.project_path)
      ∈ (start_project sample_idle_state false).2 :=
  midrun_load_failure_keeps_idle_state sample_idle_state
    (by decide) (by decide) (by decide) (by decide) (by decide)

theorem project_running_false_of_not_true {s : HarnessState}
    (h : ¬s.project_running = true) : s.project_running = false := by
  revert h; cases s.project_running <;> simp

theorem start_project_preserves (s : HarnessState) (ok : Bool) :
    (start_project s ok).1.godot_instance = s.godot_instance ∧
    (start_project s ok).1.platform = s.platform ∧
    (start_project s ok).1.project_path = s.project_path := by
  by_cases h0 : s.godot_instance = 0
  · rw [start_project_null s ok h0]
    exact ⟨rfl, rfl, rfl⟩
  · by_cases h1 : s.project_running = true
    · rw [start_project_already_running s ok h0 h1]
      exact ⟨rfl, rfl, rfl⟩
    · have h1' := project_running_false_of_not_true h1
      by_cases h2 : s.project_path = ""
      · rw [start_project_no_path s ok h0 h1' h2]
        exact ⟨rfl, rfl, rfl⟩
      · cases ok
        · rw [start_project_load_fail s h0 h1' h2]
          by_cases hp : s.platform = true <;> simp [hp]
        · rw [start_project_load_ok s h0 h1' h2]
          by_cases hp : s.platform = true <;> simp [hp]

theorem start_project_quit_mono (s : HarnessState) (ok : Bool)
    (h : s.should_quit = true) : (start_project s ok).1.should_quit = true := by
  by_cases h0 : s.godot_instance = 0
  · rw [start_project_null s ok h0]
  · by_cases h1 : s.project_running = true
    · rw [start_project_already_running s ok h0 h1]
      exact h
    · have h1' := project_running_false_of_not_true h1
      by_cases h2 : s.project_path = ""
      · rw [start_project_no_path s ok h0 h1' h2]
        exact h
      · cases ok
        · rw [start_project_load_fail s h0 h1' h2]
          by_cases hp : s.platform = true <;> simp [hp, h]
        · rw [start_project_load_ok s h0 h1' h2]
          by_cases hp : s.platform = true <;> simp [hp, h]

theorem stop_project_preserves (s : HarnessState) (r : Option String) :
    (stop_project s r).1.godot_instance = s.godot_instance ∧
    (stop_project s r).1.should_quit = s.should_quit ∧
    (stop_project s r).1.platform = s.platform ∧
    (stop_project s r).1.project_path = s.project_path := by
  unfold stop_project
  split
  · exact ⟨rfl, rfl, rfl, rfl⟩
  · simp only [update_run_state_fst]
    split <;> exact ⟨rfl, rfl, rfl, rfl⟩

theorem on_frame_instance (s : HarnessState) (q : Bool) :
    (on_frame s q).1.godot_instance = s.godot_instance := by
  unfold on_frame
  split
  · rfl
  · split
    · split
      · exact stop_project_instance s _
      · rfl
    · rfl

theorem on_frame_quit_mono (s : HarnessState) (q : Bool)
    (h : s.should_quit = true) :
    (on_frame s q).1.should_quit = true ∧ (on_frame s q).2.2 = true := by
  unfold on_frame
  split
  · exact ⟨h, rfl⟩
  · split
    · dsimp only
      split
      · rw [stop_project_should_quit]
        exact ⟨h, h⟩
      · exact ⟨h, h⟩
    · exact ⟨h, h⟩

theorem on_quit_instance (s : HarnessState) :
    (on_quit s).1.godot_instance = s.godot_instance := by
  unfold on_quit
  exact stop_project_instance s _

theorem run_loop_instance (evs : List LoopEvent) (s : HarnessState) :
    (run_loop s evs).1.godot_instance = s.godot_instance := by
  induction evs generalizing s with
  | nil => rfl
  | cons e rest ih =>
    cases e with
    | frame q =>
      show (let r := on_frame s q;
        if r.2.2 then (r.1, r.2.1)
        else let k := run_loop r.1 rest; (k.1, r.2.1 ++ k.2)).1.godot_instance = _
      dsimp only
      split
      · exact on_frame_instance s q
      · rw [ih]
        exact on_frame_instance s q
    | quit =>
      show (run_loop (on_quit s).1 rest).1.godot_instance = _
      rw [ih]
      exact on_quit_instance s
    | start ok =>
      show (run_loop (start_project s ok).1 rest).1.godot_instance = _
      rw [ih]
      exact (start_project_preserves s ok).1
    | stop =>
      show (run_loop (stop_project s (some "Stopped by user")).1 rest).1.godot_instance = _
      rw [ih]
      exact stop_project_instance s _

theorem run_loop_quit_mono (evs : List LoopEvent) (s : HarnessState)
    (h : s.should_quit = true) : (run_loop s evs).1.should_quit = true := by
  induction evs generalizing s with
  | nil => exact h
  | cons e rest ih =>
    cases e with
    | frame q =>
      show (let r := on_frame s q;
        if r.2.2 then (r.1, r.2.1)
        else let k := run_loop r.1 rest; (k.1, r.2.1 ++ k.2)).1.should_quit = true
      dsimp only
      split
      · exact (on_frame_quit_mono s q h).1
      · exact ih _ (on_frame_quit_mono s q h).1
    | quit =>
      show (run_loop (on_quit s).1 rest).1.should_quit = true
      exact ih _ rfl
    | start ok =>
      show (run_loop (start_project s ok).1 rest).1.should_quit = true
      exact ih _ (start_project_quit_mono s ok h)
    | stop =>
      show (run_loop (stop_project s (some "Stopped by user")).1 rest).1.should_quit = true
      exact ih _ ((stop_project_preserves s _).2.1.trans h)

/-- C10: the global quit flag is monotone: no operation of the harness
(run-state update, start, stop, frame callback, quit callback, nor any
sequence of platform-loop events) ever resets it from true to false, and
once it is true — set by `on_quit` after a window close, or by a null
instance in `start_project` — every subsequent `on_frame` invocation
returns true. -/
theorem should_quit_monotone (s : HarnessState) (b ok : Bool) (st : String)
    (r : Option String) (q : Bool) (evs : List LoopEvent)
    (h : s.should_quit = true) :
    (update_run_state s b st).1.should_quit = true ∧
    (start_project s ok).1.should_quit = true ∧
    (stop_project s r).1.should_quit = true ∧
    (on_frame s q).1.should_quit = true ∧
    (on_frame s q).2.2 = true ∧
    (on_quit s).1.should_quit = true ∧
    (run_loop s evs).1.should_quit = true := by
  refine ⟨?_, start_project_quit_mono s ok h, (stop_project_should_quit s r).trans h,
    (on_frame_quit_mono s q h).1, (on_frame_quit_mono s q h).2, rfl,
    run_loop_quit_mono evs s h⟩
  rw [update_run_state_fst]
  split <;> exact h

theorem should_quit_monotone_witness :
    (update_run_state { sample_idle_state with should_quit := true } false "x").1.should_quit
      = true ∧
    (start_project { sample_idle_state with should_quit := true } true).1.should_quit = true ∧
    (stop_project { sample_idle_state with should_quit := true } none).1.should_quit = true ∧
    (on_frame { sample_idle_state with should_quit := true } false).1.should_quit = true ∧
    (on_frame { sample_idle_state with should_quit := true } false).2.2 = true ∧
    (on_quit { sample_idle_state with should_quit := true }).1.should_quit = true ∧
    (run_loop { sample_idle_state with should_quit := true }
        [LoopEvent.start true, LoopEvent.frame false]).1.should_quit = true :=
  should_quit_monotone { sample_idle_state with should_quit := true }
    false true "x" none false [LoopEvent.start true, LoopEvent.frame false] rfl

/-- C3: whenever no project path can be resolved from the argument vector,
`main` prints the usage message and exits with code 1 (`EXIT_FAILURE`), its
whole observable trace being the startup line and the usage line — in
particular neither the platform nor the engine has been initialized. -/
theorem missing_path_usage_error (inp : MainInput)
    (h : resolve_project_path (inp.prog :: inp.args) = "") :
    (harness_main inp).1 = EXIT_FAILURE ∧
    (harness_main inp).2.1 =
      [Event.consoleOut "[libgodot-test] Starting...",
       Event.consoleErr "Usage: godot_test <project_path_or_pck> [--path <project_path>|--main-pack <pck>]"] := by
  unfold harness_main
  rw [if_pos h]
  exact ⟨rfl, rfl⟩

/-- An argument vector from which no project path can be resolved
(a value-less `--path` flag as the only argument). -/
def no_path_input : MainInput :=
  { prog := "godot_test"
    args := ["--path"]
    platform_ok := true
    create_result := 1
    auto_load_ok := true
    loop_events := [] }

theorem missing_path_usage_error_witness :
    (harness_main no_path_input).1 = EXIT_FAILURE ∧
    (harness_main no_path_input).2.1 =
      [Event.consoleOut "[libgodot-test] Starting...",
       Event.consoleErr "Usage: godot_test <project_path_or_pck> [--path <project_path>|--main-pack <pck>]"] :=
  missing_path_usage_error no_path_input (by decide)

theorem failed_load_msg_ne_null_msg (p : String) :
    "[libgodot-test] Failed to load Godot project: " ++ p
      ≠ "[libgodot-test] Cannot start project: Godot instance is null" := by
  intro hEq
  have hd := congrArg String.data hEq
  rw [String.data_append] at hd
  have ht := congrArg
    (fun l => List.take ("[libgodot-test] Failed to load Godot project: ".data.length) l) hd
  simp only [List.take_left] at ht
  exact absurd ht (by decide)

theorem update_run_state_events_engine_ok (s : HarnessState) (b : Bool) (st : String) :
    ∀ e ∈ (update_run_state s b st).2, ∀ i, engine_call_inst e = some i → i ≠ 0 := by
  rw [update_run_state_snd]
  split <;> simp [engine_call_inst]

theorem update_run_state_events_no_err (s : HarnessState) (b : Bool) (st : String) :
    ∀ e ∈ (update_run_state s b st).2, ∀ m, e ≠ Event.consoleErr m := by
  rw [update_run_state_snd]
  split <;> simp

theorem stop_project_events_engine_ok (s : HarnessState) (r : Option String) :
    ∀ e ∈ (stop_project s r).2, ∀ i, engine_call_inst e = some i → i ≠ 0 := by
  unfold stop_project
  split
  case isTrue h => simp
  case isFalse h =>
    intro e he i hi
    dsimp only at he
    rw [List.mem_cons, List.mem_cons] at he
    rcases he with rfl | rfl | he
    · simp [engine_call_inst] at hi
    · simp only [engine_call_inst, Option.some.injEq] at hi
      subst hi
      intro h0
      exact h (Or.inl h0)
    · exact update_run_state_events_engine_ok s false _ e he i hi

theorem stop_project_events_no_err (s : HarnessState) (r : Option String) :
    ∀ e ∈ (stop_project s r).2, ∀ m, e ≠ Event.consoleErr m := by
  unfold stop_project
  split
  case isTrue h => simp
  case isFalse h =>
    intro e he m
    dsimp only at he
    rw [List.mem_cons, List.mem_cons] at he
    rcases he with rfl | rfl | he
    · simp
    · simp
    · exact update_run_state_events_no_err s false _ e he m

theorem start_project_events_engine_ok (s : HarnessState) (ok : Bool) :
    ∀ e ∈ (start_project s ok).2, ∀ i, engine_call_inst e = some i → i ≠ 0 := by
  by_cases h0 : s.godot_instance = 0
  · rw [start_project_null s ok h0]
    simp [engine_call_inst]
  · by_cases h1 : s.project_running = true
    · rw [start_project_already_running s ok h0 h1]
      simp [engine_call_inst]
    · have h1' := project_running_false_of_not_true h1
      by_cases h2 : s.project_path = ""
      · rw [start_project_no_path s ok h0 h1' h2]
        simp [engine_call_inst]
      · cases ok
        · rw [start_project_load_fail s h0 h1' h2]
          intro e he i hi
          dsimp only at he
          rw [List.mem_append, List.mem_cons, List.mem_cons, List.mem_cons] at he
          rcases he with (rfl | he) | rfl | rfl | he
          · simp [engine_call_inst] at hi
          · exact update_run_state_events_engine_ok s false _ e he i hi
          · simp only [engine_call_inst, Option.some.injEq] at hi
            subst hi
            exact h0
          · simp [engine_call_inst] at hi
          · exact update_run_state_events_engine_ok _ false _ e he i hi
        · rw [start_project_load_ok s h0 h1' h2]
          intro e he i hi
          dsimp only at he
          rw [List.mem_append, List.mem_cons, List.mem_cons] at he
          rcases he with (rfl | he) | rfl | he
          · simp [engine_call_inst] at hi
          · exact update_run_state_events_engine_ok s false _ e he i hi
          · simp only [engine_call_inst, Option.some.injEq] at hi
            subst hi
            exact h0
          · exact update_run_state_events_engine_ok _ true _ e he i hi

theorem start_project_no_null_msg (s : HarnessState) (ok : Bool)
    (h0 : s.godot_instance ≠ 0) :
    Event.consoleErr "[libgodot-test] Cannot start project: Godot instance is null"
      ∉ (start_project s ok).2 := by
  by_cases h1 : s.project_running = true
  · rw [start_project_already_running s ok h0 h1]
    simp
  · have h1' := project_running_false_of_not_true h1
    by_cases h2 : s.project_path = ""
    · rw [start_project_no_path s ok h0 h1' h2]
      simp
    · cases ok
      · rw [start_project_load_fail s h0 h1' h2]
        intro he
        dsimp only at he
        rw [List.mem_append, List.mem_cons, List.mem_cons, List.mem_cons] at he
        rcases he with (he | he) | he | he | he
        · exact absurd he.symm (by simp)
        · exact update_run_state_events_no_err s false _ _ he _ rfl
        · exact absurd he.symm (by simp)
        · rw [Event.consoleErr.injEq] at he
          exact failed_load_msg_ne_null_msg s.project_path he.symm
        · exact update_run_state_events_no_err _ false _ _ he _ rfl
      · rw [start_project_load_ok s h0 h1' h2]
        intro he
        dsimp only at he
        rw [List.mem_append, List.mem_cons, List.mem_cons] at he
        rcases he with (he | he) | he | he
        · exact absurd he.symm (by simp)
        · exact update_run_state_events_no_err s false _ _ he _ rfl
        · exact absurd he.symm (by simp)
        · exact update_run_state_events_no_err _ true _ _ he _ rfl

theorem on_frame_events_engine_ok (s : HarnessState) (q : Bool) :
    ∀ e ∈ (on_frame s q).2.1, ∀ i, engine_call_inst e = some i → i ≠ 0 := by
  unfold on_frame
  split
  case isTrue h => simp
  case isFalse h =>
    split
    · dsimp only
      split
      · intro e he i hi
        rw [List.mem_cons] at he
        rcases he with rfl | he
        · simp only [engine_call_inst, Option.some.injEq] at hi
          subst hi
          exact h
        · exact stop_project_events_engine_ok s _ e he i hi
      · intro e he i hi
        rw [List.mem_singleton] at he
        subst he
        simp only [engine_call_inst, Option.some.injEq] at hi
        subst hi
        exact h
    · simp

theorem on_frame_no_null_msg (s : HarnessState) (q : Bool) :
    Event.consoleErr "[libgodot-test] Cannot start project: Godot instance is null"
      ∉ (on_frame s q).2.1 := by
  unfold on_frame
  split
  · simp
  · split
    · dsimp only
      split
      · intro he
        rw [List.mem_cons] at he
        rcases he with he | he
        · exact absurd he.symm (by simp)
        · exact stop_project_events_no_err s _ _ he _ rfl
      · simp
    · simp

theorem on_quit_events_engine_ok (s : HarnessState) :
    ∀ e ∈ (on_quit s).2, ∀ i, engine_call_inst e = some i → i ≠ 0 := by
  unfold on_quit
  exact stop_project_events_engine_ok s _

theorem on_quit_events_no_err (s : HarnessState) :
    ∀ e ∈ (on_quit s).2, ∀ m, e ≠ Event.consoleErr m := by
  unfold on_quit
  exact stop_project_events_no_err s _

theorem run_loop_events_engine_ok (evs : List LoopEvent) (s : HarnessState) :
    ∀ e ∈ (run_loop s evs).2, ∀ i, engine_call_inst e = some i → i ≠ 0 := by
  induction evs generalizing s with
  | nil => simp [run_loop]
  | cons ev rest ih =>
    cases ev with
    | frame q =>
      show ∀ e ∈ (let r := on_frame s q;
          if r.2.2 then (r.1, r.2.1)
          else let k := run_loop r.1 rest; (k.1, r.2.1 ++ k.2)).2, _
      dsimp only
      split
      · exact on_frame_events_engine_ok s q
      · intro e he i hi
        dsimp only at he
        rw [List.mem_append] at he
        rcases he with he | he
        · exact on_frame_events_engine_ok s q e he i hi
        · exact ih _ e he i hi
    | quit =>
      intro e he i hi
      rw [show (run_loop s (LoopEvent.quit :: rest)).2
          = (on_quit s).2 ++ (run_loop (on_quit s).1 rest).2 from rfl,
        List.mem_append] at he
      rcases he with he | he
      · exact on_quit_events_engine_ok s e he i hi
      · exact ih _ e he i hi
    | start ok =>
      intro e he i hi
      rw [show (run_loop s (LoopEvent.start ok :: rest)).2
          = (start_project s ok).2 ++ (run_loop (start_project s ok).1 rest).2 from rfl,
        List.mem_append] at he
      rcases he with he | he
      · exact start_project_events_engine_ok s ok e he i hi
      · exact ih _ e he i hi
    | stop =>
      intro e he i hi
      rw [show (run_loop s (LoopEvent.stop :: rest)).2
          = (stop_project s (some "Stopped by user")).2
            ++ (run_loop (stop_project s (some "Stopped by user")).1 rest).2 from rfl,
        List.mem_append] at he
      rcases he with he | he
      · exact stop_project_events_engine_ok s _ e he i hi
      · exact ih _ e he i hi

theorem run_loop_no_null_msg (evs : List LoopEvent) (s : HarnessState)
    (h : s.godot_instance ≠ 0) :
    Event.consoleErr "[libgodot-test] Cannot start project: Godot instance is null"
      ∉ (run_loop s evs).2 := by
  induction evs generalizing s with
  | nil => simp [run_loop]
  | cons ev rest ih =>
    cases ev with
    | frame q =>
      show Event.consoleErr _ ∉ (let r := on_frame s q;
          if r.2.2 then (r.1, r.2.1)
          else let k := run_loop r.1 rest; (k.1, r.2.1 ++ k.2)).2
      dsimp only
      split
      · exact on_frame_no_null_msg s q
      · intro he
        dsimp only at he
        rw [List.mem_append] at he
        rcases he with he | he
        · exact on_frame_no_null_msg s q he
        · exact ih _ (by rw [on_frame_instance]; exact h) he
    | quit =>
      intro he
      rw [show (run_loop s (LoopEvent.quit :: rest)).2
          = (on_quit s).2 ++ (run_loop (on_quit s).1 rest).2 from rfl,
        List.mem_append] at he
      rcases he with he | he
      · exact on_quit_events_no_err s _ he _ rfl
      · exact ih _ (by rw [on_quit_instance]; exact h) he
    | start ok =>
      intro he
      rw [show (run_loop s (LoopEvent.start ok :: rest)).2
          = (start_project s ok).2 ++ (run_loop (start_project s ok).1 rest).2 from rfl,
        List.mem_append] at he
      rcases he with he | he
      · exact start_project_no_null_msg s ok h he
      · exact ih _ (by rw [(start_project_preserves s ok).1]; exact h) he
    | stop =>
      intro he
      rw [show (run_loop s (LoopEvent.stop :: rest)).2
          = (stop_project s (some "Stopped by user")).2
            ++ (run_loop (stop_project s (some "Stopped by user")).1 rest).2 from rfl,
        List.mem_append] at he
      rcases he with he | he
      · exact stop_project_events_no_err s _ _ he _ rfl
      · exact ih _ (by rw [stop_project_instance]; exact h) he

/-- The global state right after `libgodot_create_godot_instance` succeeds in
`main`: platform up, project path stored, instance handle set. -/
def main_init_state (inp : MainInput) : HarnessState :=
  { godot_instance := inp.create_result
    should_quit := false
    platform := true
    project_path := resolve_project_path (inp.prog :: inp.args)
    project_running := false
    run_state := false
    status_text := none }

theorem harness_main_success (inp : MainInput)
    (h1 : ¬resolve_project_path (inp.prog :: inp.args) = "")
    (h2 : inp.platform_ok = true) (h3 : ¬inp.create_result = 0) :
    harness_main inp =
      (let project_path := resolve_project_path (inp.prog :: inp.args)
       let ready := update_run_state (main_init_state inp) false
         ("Project ready: " ++ project_path)
       let auto := start_project ready.1 inp.auto_load_ok
       let looped := run_loop auto.1 inp.loop_events
       let shut := stop_project looped.1 (some "Shutting down")
       (EXIT_SUCCESS,
        [Event.consoleOut "[libgodot-test] Starting...",
         Event.platformInit true,
         Event.setWindowTitle ("Embedded Godot Project from " ++ project_path),
         Event.consoleOut (args_line (godot_argv inp.prog inp.args)),
         Event.engineCreate inp.create_result]
          ++ ready.2 ++ auto.2
          ++ [Event.consoleOut "[libgodot-test] Godot ready, entering main loop"]
          ++ looped.2
          ++ [Event.consoleOut "[libgodot-test] Main loop ended, shutting down"]
          ++ shut.2
          ++ [Event.engineDestroy shut.1.godot_instance,
              Event.platformShutdown,
              Event.consoleOut "[libgodot-test] Done"],
        { shut.1 with godot_instance := 0, platform := false })) := by
  unfold harness_main
  dsimp only
  rw [if_neg h1, if_neg (by simp [h2]), if_neg h3]
  rfl

/-- C1: every failure of the harness other than a project load failure raised
from `start_project` (which is reported and leaves the harness idle) is
reported on the console and terminates the process with the nonzero code
`EXIT_FAILURE`: a missing path, a failed platform init and a null instance
from `libgodot_create_godot_instance` each do so; once initialization has
succeeded `main` always exits with `EXIT_SUCCESS` (load failures never
terminate it); and `start_project`'s own null-instance failure can never
occur during a run of `main`, its report never appearing in any trace. -/
theorem main_failures_reported_nonzero_exit (inp : MainInput) :
    (resolve_project_path (inp.prog :: inp.args) = "" →
      (harness_main inp).1 = EXIT_FAILURE ∧
      Event.consoleErr "Usage: godot_test <project_path_or_pck> [--path <project_path>|--main-pack <pck>]"
        ∈ (harness_main inp).2.1) ∧
    (resolve_project_path (inp.prog :: inp.args) ≠ "" → inp.platform_ok = false →
      (harness_main inp).1 = EXIT_FAILURE ∧
      Event.consoleErr "[libgodot-test] Failed to initialize platform"
        ∈ (harness_main inp).2.1) ∧
    (resolve_project_path (inp.prog :: inp.args) ≠ "" → inp.platform_ok = true →
      inp.create_result = 0 →
      (harness_main inp).1 = EXIT_FAILURE ∧
      Event.consoleErr "[libgodot-test] Failed to create Godot instance"
        ∈ (harness_main inp).2.1) ∧
    (resolve_project_path (inp.prog :: inp.args) ≠ "" → inp.platform_ok = true →
      inp.create_result ≠ 0 → (harness_main inp).1 = EXIT_SUCCESS) ∧
    Event.consoleErr "[libgodot-test] Cannot start project: Godot instance is null"
      ∉ (harness_main inp).2.1 := by
  refine ⟨?_, ?_, ?_, ?_, ?_⟩
  · intro h
    unfold harness_main
    dsimp only
    rw [if_pos h]
    exact ⟨rfl, by simp⟩
  · intro h1 h2
    unfold harness_main
    dsimp only
    rw [if_neg h1, if_pos h2]
    exact ⟨rfl, by simp⟩
  · intro h1 h2 h3
    unfold harness_main
    dsimp only
    rw [if_neg h1, if_neg (by simp [h2]), if_pos h3]
    exact ⟨rfl, by simp⟩
  · intro h1 h2 h3
    rw [harness_main_success inp h1 h2 h3]
  · by_cases h1 : resolve_project_path (inp.prog :: inp.args) = ""
    · unfold harness_main
      dsimp only
      rw [if_pos h1]
      simp
    · by_cases h2 : inp.platform_ok = true
      · by_cases h3 : inp.create_result = 0
        · unfold harness_main
          dsimp only
          rw [if_neg h1, if_neg (by simp [h2]), if_pos h3]
          simp
        · rw [harness_main_success inp h1 h2 h3]
          dsimp only
          have hready : (update_run_state (main_init_state inp) false
              ("Project ready: " ++ resolve_project_path (inp.prog :: inp.args))).1.godot_instance
              = inp.create_result := by
            rw [update_run_state_fst]
            split <;> rfl
          intro he
          simp only [List.mem_append, List.mem_cons, List.mem_singleton,
            List.not_mem_nil, or_false, false_or] at he
          rcases he with
            (((((((he | he | he | he | he) | he) | he) | he) | he) | he) | he) | he | he | he
          · exact absurd he (by simp)
          · exact absurd he (by simp)
          · exact absurd he (by simp)
          · exact absurd he (by simp)
          · exact absurd he (by simp)
          · exact update_run_state_events_no_err _ _ _ _ he _ rfl
          · exact start_project_no_null_msg _ _ (by rw [hready]; exact h3) he
          · exact absurd he (by simp)
          · exact run_loop_no_null_msg _ _
              (by rw [(start_project_preserves _ _).1, hready]; exact h3) he
          · exact absurd he (by simp)
          · exact stop_project_events_no_err _ _ _ he _ rfl
          · exact absurd he (by simp)
          · exact absurd he (by simp)
          · exact absurd he (by simp)
      · have h2' : inp.platform_ok = false := by
          revert h2; cases inp.platform_ok <;> simp
        unfold harness_main
        dsimp only
        rw [if_neg h1, if_pos h2']
        simp

theorem main_failures_reported_nonzero_exit_witness :
    ((harness_main no_path_input).1 = EXIT_FAILURE ∧
      Event.consoleErr "Usage: godot_test <project_path_or_pck> [--path <project_path>|--main-pack <pck>]"
        ∈ (harness_main no_path_input).2.1) ∧
    Event.consoleErr "[libgodot-test] Cannot start project: Godot instance is null"
      ∉ (harness_main no_path_input).2.1 :=
  ⟨(main_failures_reported_nonzero_exit no_path_input).1 (by decide),
   (main_failures_reported_nonzero_exit no_path_input).2.2.2.2⟩

/-- C7: every `libgodot_*` call that passes the engine instance handle
(load, unload, iterate, destroy) — whether issued by `start_project`,
`stop_project`, the frame callback, or anywhere in a whole run of `main` —
receives a non-null handle: each call site is dominated by a non-null check,
so the null-handle case is unreachable. -/
theorem engine_calls_nonnull_instance (s : HarnessState) (ok : Bool)
    (r : Option String) (q : Bool) (inp : MainInput) :
    (∀ e ∈ (start_project s ok).2, ∀ i, engine_call_inst e = some i → i ≠ 0) ∧
    (∀ e ∈ (stop_project s r).2, ∀ i, engine_call_inst e = some i → i ≠ 0) ∧
    (∀ e ∈ (on_frame s q).2.1, ∀ i, engine_call_inst e = some i → i ≠ 0) ∧
    (∀ e ∈ (harness_main inp).2.1, ∀ i, engine_call_inst e = some i → i ≠ 0) := by
  refine ⟨start_project_events_engine_ok s ok, stop_project_events_engine_ok s r,
    on_frame_events_engine_ok s q, ?_⟩
  by_cases h1 : resolve_project_path (inp.prog :: inp.args) = ""
  · unfold harness_main
    dsimp only
    rw [if_pos h1]
    simp [engine_call_inst]
  · by_cases h2 : inp.platform_ok = true
    · by_cases h3 : inp.create_result = 0
      · unfold harness_main
        dsimp only
        rw [if_neg h1, if_neg (by simp [h2]), if_pos h3]
        simp [engine_call_inst]
      · rw [harness_main_success inp h1 h2 h3]
        dsimp only
        have hready : (update_run_state (main_init_state inp) false
            ("Project ready: " ++ resolve_project_path (inp.prog :: inp.args))).1.godot_instance
            = inp.create_result := by
          rw [update_run_state_fst]
          split <;> rfl
        intro e he i hi
        simp only [List.mem_append, List.mem_cons, List.mem_singleton,
          List.not_mem_nil, or_false, false_or] at he
        rcases he with
          (((((((he | he | he | he | he) | he) | he) | he) | he) | he) | he) | he | he | he
        · subst he; simp [engine_call_inst] at hi
        · subst he; simp [engine_call_inst] at hi
        · subst he; simp [engine_call_inst] at hi
        · subst he; simp [engine_call_inst] at hi
        · subst he; simp [engine_call_inst] at hi
        · exact update_run_state_events_engine_ok _ _ _ e he i hi
        · exact start_project_events_engine_ok _ _ e he i hi
        · subst he; simp [engine_call_inst] at hi
        · exact run_loop_events_engine_ok _ _ e he i hi
        · subst he; simp [engine_call_inst] at hi
        · exact stop_project_events_engine_ok _ _ e he i hi
        · subst he
          simp only [engine_call_inst, Option.some.injEq] at hi
          subst hi
          rw [stop_project_instance, run_loop_instance,
            (start_project_preserves _ _).1, hready]
          exact h3
        · subst he; simp [engine_call_inst] at hi
        · subst he; simp [engine_call_inst] at hi
    · have h2' : inp.platform_ok = false := by
        revert h2; cases inp.platform_ok <;> simp
      unfold harness_main
      dsimp only
      rw [if_neg h1, if_pos h2']
      simp [engine_call_inst]

theorem engine_calls_nonnull_instance_witness :
    Event.engineUnload 2 ∈ (stop_project sample_running_state none).2 ∧ (2 : Nat) ≠ 0 :=
  ⟨by decide,
   (engine_calls_nonnull_instance sample_running_state false none false no_path_input).2.1
     (Event.engineUnload 2) (by decide) 2 (by decide)⟩

theorem update_run_state_running (s : HarnessState) (b : Bool) (st : String) :
    (update_run_state s b st).1.project_running = b := by
  rw [update_run_state_fst]
  split <;> rfl

theorem update_run_state_alt (s : HarnessState) (b : Bool) (st : String)
    (x : Option Bool) :
    List.foldl alt_step x (update_run_state s b st).2 = x := by
  rw [update_run_state_snd]
  split
  · cases x <;> simp [alt_step, is_load_ok, is_unload]
  · rfl

theorem stop_project_alt (s : HarnessState) (r : Option String) :
    List.foldl alt_step (some s.project_running) (stop_project s r).2
      = some (stop_project s r).1.project_running := by
  unfold stop_project
  split
  case isTrue h => rfl
  case isFalse h =>
    have h1 : s.project_running = true := by
      rcases not_or.mp h with ⟨-, hb⟩
      revert hb; cases s.project_running <;> simp
    dsimp only
    rw [List.foldl_cons, List.foldl_cons, update_run_state_alt, update_run_state_running, h1]
    rfl

theorem start_project_alt (s : HarnessState) (ok : Bool) :
    List.foldl alt_step (some s.project_running) (start_project s ok).2
      = some (start_project s ok).1.project_running := by
  by_cases h0 : s.godot_instance = 0
  · rw [start_project_null s ok h0]
    rfl
  · by_cases h1 : s.project_running = true
    · rw [start_project_already_running s ok h0 h1]
      rfl
    · have h1' := project_running_false_of_not_true h1
      by_cases h2 : s.project_path = ""
      · rw [start_project_no_path s ok h0 h1' h2]
        rfl
      · cases ok
        · rw [start_project_load_fail s h0 h1' h2]
          dsimp only
          simp only [List.foldl_append, List.foldl_cons, List.foldl_nil,
            update_run_state_alt, update_run_state_running, h1']
          simp [alt_step, is_load_ok, is_unload]
        · rw [start_project_load_ok s h0 h1' h2]
          dsimp only
          simp only [List.foldl_append, List.foldl_cons, List.foldl_nil,
            update_run_state_alt, update_run_state_running, h1']
          simp [alt_step, is_load_ok, is_unload]

theorem on_frame_alt (s : HarnessState) (q : Bool) :
    List.foldl alt_step (some s.project_running) (on_frame s q).2.1
      = some (on_frame s q).1.project_running := by
  unfold on_frame
  split
  · rfl
  · split
    · dsimp only
      split
      · rw [List.foldl_cons]
        exact stop_project_alt s _
      · rfl
    · rfl

theorem on_quit_alt (s : HarnessState) :
    List.foldl alt_step (some s.project_running) (on_quit s).2
      = some (on_quit s).1.project_running := by
  unfold on_quit
  exact stop_project_alt s _

theorem run_loop_alt (evs : List LoopEvent) (s : HarnessState) :
    List.foldl alt_step (some s.project_running) (run_loop s evs).2
      = some (run_loop s evs).1.project_running := by
  induction evs generalizing s with
  | nil => rfl
  | cons ev rest ih =>
    cases ev with
    | frame q =>
      rw [show run_loop s (LoopEvent.frame q :: rest)
          = (if (on_frame s q).2.2 then ((on_frame s q).1, (on_frame s q).2.1)
             else ((run_loop (on_frame s q).1 rest).1,
                   (on_frame s q).2.1 ++ (run_loop (on_frame s q).1 rest).2)) from rfl]
      split
      · exact on_frame_alt s q
      · dsimp only
        rw [List.foldl_append, on_frame_alt]
        exact ih _
    | quit =>
      rw [show run_loop s (LoopEvent.quit :: rest)
          = ((run_loop (on_quit s).1 rest).1,
             (on_quit s).2 ++ (run_loop (on_quit s).1 rest).2) from rfl]
      dsimp only
      rw [List.foldl_append, on_quit_alt]
      exact ih _
    | start ok =>
      rw [show run_loop s (LoopEvent.start ok :: rest)
          = ((run_loop (start_project s ok).1 rest).1,
             (start_project s ok).2 ++ (run_loop (start_project s ok).1 rest).2) from rfl]
      dsimp only
      rw [List.foldl_append, start_project_alt]
      exact ih _
    | stop =>
      rw [show run_loop s (LoopEvent.stop :: rest)
          = ((run_loop (stop_project s (some "Stopped by user")).1 rest).1,
             (stop_project s (some "Stopped by user")).2
               ++ (run_loop (stop_project s (some "Stopped by user")).1 rest).2) from rfl]
      dsimp only
      rw [List.foldl_append, stop_project_alt]
      exact ih _

theorem stop_project_final_not_running (s : HarnessState) (r : Option String)
    (h : s.godot_instance ≠ 0) :
    (stop_project s r).1.project_running = false := by
  unfold stop_project
  split
  case isTrue hc =>
    rcases hc with hc | hc
    · exact absurd hc h
    · exact hc
  case isFalse hc =>
    dsimp only
    exact update_run_state_running s false _

/-- C8 (amended): the running flag tracks loadedness and successful loads
alternate with unloads: through `start_project`, `stop_project`, the frame
callback, the quit callback and any platform-loop sequence, running the
alternation automaton `alt_step` (which rejects a successful load while
loaded and an unload while unloaded) from the pre-state's running flag over
the emitted events always accepts and ends exactly at the post-state's
running flag — so `g_project_running` is true precisely between a successful
`libgodot_load_project` call and the next `libgodot_unload_project` call —
and over any whole run of `main` the automaton, started not-loaded, accepts
and ends not-loaded. Failed load calls are neutral: only successful loads
and unloads alternate strictly. -/
theorem successful_loads_unloads_alternate (s : HarnessState) (ok : Bool)
    (r : Option String) (q : Bool) (evs : List LoopEvent) (inp : MainInput) :
    (List.foldl alt_step (some s.project_running) (start_project s ok).2
      = some (start_project s ok).1.project_running) ∧
    (List.foldl alt_step (some s.project_running) (stop_project s r).2
      = some (stop_project s r).1.project_running) ∧
    (List.foldl alt_step (some s.project_running) (on_frame s q).2.1
      = some (on_frame s q).1.project_running) ∧
    (List.foldl alt_step (some s.project_running) (on_quit s).2
      = some (on_quit s).1.project_running) ∧
    (List.foldl alt_step (some s.project_running) (run_loop s evs).2
      = some (run_loop s evs).1.project_running) ∧
    (List.foldl alt_step (some false) (harness_main inp).2.1 = some false) := by
  refine ⟨start_project_alt s ok, stop_project_alt s r, on_frame_alt s q,
    on_quit_alt s, run_loop_alt evs s, ?_⟩
  by_cases h1 : resolve_project_path (inp.prog :: inp.args) = ""
  · unfold harness_main
    dsimp only
    rw [if_pos h1]
    rfl
  · by_cases h2 : inp.platform_ok = true
    · by_cases h3 : inp.create_result = 0
      · unfold harness_main
        dsimp only
        rw [if_neg h1, if_neg (by simp [h2]), if_pos h3]
        rfl
      · rw [harness_main_success inp h1 h2 h3]
        dsimp only
        simp only [List.foldl_append, List.foldl_cons, List.foldl_nil]
        rw [show alt_step (alt_step (alt_step (alt_step (alt_step (some false)
            (Event.consoleOut "[libgodot-test] Starting...")) (Event.platformInit true))
            (Event.setWindowTitle ("Embedded Godot Project from "
              ++ resolve_project_path (inp.prog :: inp.args))))
            (Event.consoleOut (args_line (godot_argv inp.prog inp.args))))
            (Event.engineCreate inp.create_result) = some false from rfl]
        have hready := update_run_state_running (main_init_state inp) false
          ("Project ready: " ++ resolve_project_path (inp.prog :: inp.args))
        rw [show (some false : Option Bool) = some ((update_run_state (main_init_state inp)
            false ("Project ready: " ++ resolve_project_path (inp.prog :: inp.args))).1.project_running)
          from by rw [hready]]
        rw [update_run_state_alt, start_project_alt]
        rw [show ∀ x : Option Bool, alt_step x
            (Event.consoleOut "[libgodot-test] Godot ready, entering main loop") = x from
          fun x => by cases x <;> rfl]
        rw [run_loop_alt]
        rw [show ∀ x : Option Bool, alt_step x
            (Event.consoleOut "[libgodot-test] Main loop ended, shutting down") = x from
          fun x => by cases x <;> rfl]
        rw [stop_project_alt]
        have hinst : (run_loop (start_project (update_run_state (main_init_state inp) false
            ("Project ready: " ++ resolve_project_path (inp.prog :: inp.args))).1
              inp.auto_load_ok).1 inp.loop_events).1.godot_instance ≠ 0 := by
          rw [run_loop_instance, (start_project_preserves _ _).1]
          rw [update_run_state_fst]
          split
          · exact h3
          · exact h3
        rw [stop_project_final_not_running _ _ hinst, hready]
        rfl
    · have h2' : inp.platform_ok = false := by
        revert h2; cases inp.platform_ok <;> simp
      unfold harness_main
      dsimp only
      rw [if_neg h1, if_pos h2']
      rfl

/-- A run in which the auto-start load fails and the user presses start once
more, that load failing too: `libgodot_load_project` is called twice with no
intervening `libgodot_unload_project`. -/
def double_load_input : MainInput :=
  { prog := "godot_test"
    args := ["demo"]
    platform_ok := true
    create_result := 1
    auto_load_ok := false
    loop_events := [LoopEvent.start false] }

/-- C8 counterexample: read literally — every `libgodot_load_project` call
alternating strictly with `libgodot_unload_project` calls — the claim is
false: in the concrete run `double_load_input` the load call is made twice
(both times failing) with no unload between, so the call-level alternation
automaton rejects the trace. -/
theorem load_calls_not_strictly_alternating :
    List.foldl call_alt_step (some false) (harness_main double_load_input).2.1 = none
      ∧ List.countP (fun e => is_load_call e) (harness_main double_load_input).2.1 = 2
      ∧ List.countP (fun e => is_unload e) (harness_main double_load_input).2.1 = 0 := by
  refine ⟨?_, ?_, ?_⟩ <;> rfl

theorem successful_loads_unloads_alternate_witness :
    List.foldl alt_step (some false) (harness_main double_load_input).2.1 = some false :=
  (successful_loads_unloads_alternate init_state false none false [] double_load_input).2.2.2.2.2
